import Mathlib

/-!
Shallow embedding of the be-creative experiment runner (src/src/App.js) and
proofs about the claims of its specification.  The definitions translate the
JavaScript source: configuration constants, the Fisher-Yates shuffle, the
condition/theme session plan, the countdown timer, the prompt-input component
state machine, the app-level submission handlers, and the generation poller.
-/

namespace BeCreative

/-- Constants from src/src/App.js lines 4-7.  The source comments read
"2 minutes in seconds" and "30 seconds for practice", but the values are 12
and 10. -/
def TRIAL_TIME : Nat := 12

/-- PRACTICE_TIME constant, App.js line 6. -/
def PRACTICE_TIME : Nat := 10

/-- WARNING_TIME constant, App.js line 7. -/
def WARNING_TIME : Int := 30

/-- PRACTICE_THEME constant, App.js line 9. -/
def PRACTICE_THEME : String := "SPACE"

/-- TRIAL_THEMES pool, App.js lines 10-17. -/
def TRIAL_THEMES : List String :=
  ["TIME", "MYSTERY", "COMFORT", "MEMORY", "CURIOSITY", "FUTURE"]

/-- One swap step of shuffleArray (App.js line 77): exchange entries i and j.
Both indices are in bounds in every call the loop makes; out of bounds the
swap is a no-op. -/
def shuffleSwap (l : List String) (i j : Nat) : List String :=
  if i < l.length ∧ j < l.length then
    (l.set i (l.getD j "")).set j (l.getD i "")
  else l

/-- The loop of shuffleArray (App.js lines 75-78): for i from the last index
down to 1, swap entry i with entry rand i, where rand i models
Math.floor(Math.random() * (i + 1)). -/
def shuffleGo (rand : Nat → Nat) : List String → Nat → List String
  | l, 0 => l
  | l, i + 1 => shuffleGo rand (shuffleSwap l (i + 1) (rand (i + 1))) i

/-- shuffleArray (App.js lines 73-80), parametrized by the random draws. -/
def shuffleArray (rand : Nat → Nat) (l : List String) : List String :=
  shuffleGo rand l (l.length - 1)

/-- Condition identifiers are the strings used by the source. -/
def BE_CREATIVE : String := "BE_CREATIVE"

/-- BE_FLUENT condition identifier. -/
def BE_FLUENT : String := "BE_FLUENT"

/-- The session condition plan (App.js lines 775-785): a coin decides whether
the creative block precedes the fluent block; each block is the condition
repeated 3 times. -/
structure ConditionsState where
  order : String
  sequence : List String
deriving DecidableEq

/-- conditions state initializer (App.js lines 775-785); isCreativeFirst
models Math.random() < 0.5. -/
def conditionsInit (isCreativeFirst : Bool) : ConditionsState :=
  { order := if isCreativeFirst then "creative_first" else "fluent_first"
    sequence :=
      if isCreativeFirst then
        List.replicate 3 BE_CREATIVE ++ List.replicate 3 BE_FLUENT
      else
        List.replicate 3 BE_FLUENT ++ List.replicate 3 BE_CREATIVE }

/-- trialThemes initializer (App.js lines 788-791): the practice theme is
prepended to a shuffle of the theme pool. -/
def trialThemesInit (rand : Nat → Nat) : List String :=
  PRACTICE_THEME :: shuffleArray rand TRIAL_THEMES

/-- Replacing entry m of t by a and re-prepending the old entry is a
permutation of a :: t. -/
theorem getD_cons_set_perm (t : List String) :
    ∀ (m : Nat) (a : String), m < t.length →
      (t.getD m "" :: t.set m a).Perm (a :: t) := by
  induction t with
  | nil =>
    intro m a h
    simp at h
  | cons b s ih =>
    intro m a h
    cases m with
    | zero => simpa using List.Perm.swap a b s
    | succ m =>
      have hm : m < s.length := by simpa using h
      show (s.getD m "" :: b :: s.set m a).Perm (a :: b :: s)
      exact (List.Perm.swap b (s.getD m "") (s.set m a)).trans
        (((ih m a hm).cons b).trans (List.Perm.swap a b s))

/-- Exchanging the entries at two in-bounds positions permutes the list. -/
theorem set_set_swap_perm (l : List String) :
    ∀ i j : Nat, i < l.length → j < l.length →
      ((l.set i (l.getD j "")).set j (l.getD i "")).Perm l := by
  induction l with
  | nil =>
    intro i j hi
    simp at hi
  | cons b s ih =>
    intro i j hi hj
    cases i with
    | zero =>
      cases j with
      | zero => exact List.Perm.refl _
      | succ j =>
        have hj2 : j < s.length := by simpa using hj
        exact getD_cons_set_perm s j b hj2
    | succ i =>
      have hi2 : i < s.length := by simpa using hi
      cases j with
      | zero => exact getD_cons_set_perm s i b hi2
      | succ j =>
        have hj2 : j < s.length := by simpa using hj
        exact (ih i j hi2 hj2).cons b

/-- A shuffleSwap step permutes the list. -/
theorem shuffleSwap_perm (l : List String) (i j : Nat) :
    (shuffleSwap l i j).Perm l := by
  unfold shuffleSwap
  split
  case isTrue h => exact set_set_swap_perm l i j h.1 h.2
  case isFalse h => exact List.Perm.refl l

/-- The whole shuffle loop permutes the list. -/
theorem shuffleGo_perm (rand : Nat → Nat) (i : Nat) :
    ∀ l : List String, (shuffleGo rand l i).Perm l := by
  induction i with
  | zero => intro l; exact List.Perm.refl l
  | succ i ih =>
    intro l
    exact (ih (shuffleSwap l (i + 1) (rand (i + 1)))).trans
      (shuffleSwap_perm l (i + 1) (rand (i + 1)))

/-- shuffleArray output is a permutation of its input, for every random
draw. -/
theorem shuffleArray_perm (rand : Nat → Nat) (l : List String) :
    (shuffleArray rand l).Perm l :=
  shuffleGo_perm rand (l.length - 1) l

/-- C8: for every random draw at session creation, the condition sequence is
exactly 2 contiguous blocks of equal length (3 BE_CREATIVE then 3 BE_FLUENT,
or the reverse, decided by the coin), covering all 6 main trial slots, and
the theme sequence has the practice theme at slot 0 followed by a permutation
(no duplicates, no omissions) of the 6-theme pool. -/
theorem c8_plan_randomization (coin : Bool) (rand : Nat → Nat) :
    (conditionsInit coin).sequence =
      (if coin then List.replicate 3 BE_CREATIVE ++ List.replicate 3 BE_FLUENT
       else List.replicate 3 BE_FLUENT ++ List.replicate 3 BE_CREATIVE) ∧
    (conditionsInit coin).sequence.length = 6 ∧
    (conditionsInit true).sequence ≠ (conditionsInit false).sequence ∧
    (trialThemesInit rand).headI = PRACTICE_THEME ∧
    (trialThemesInit rand).tail.Perm TRIAL_THEMES ∧
    (trialThemesInit rand).tail.Nodup ∧
    (trialThemesInit rand).length = 7 := by
  have hnd : TRIAL_THEMES.Nodup := by decide
  have hperm : (shuffleArray rand TRIAL_THEMES).Perm TRIAL_THEMES :=
    shuffleArray_perm rand TRIAL_THEMES
  have h6a : (shuffleArray rand TRIAL_THEMES).Nodup := hperm.nodup_iff.mpr hnd
  have h5 : (trialThemesInit rand).tail.Perm TRIAL_THEMES := by
    simp only [trialThemesInit, List.tail_cons]
    exact hperm
  have h6 : (trialThemesInit rand).tail.Nodup := by
    simp only [trialThemesInit, List.tail_cons]
    exact h6a
  have h7 : (trialThemesInit rand).length = 7 := by
    simp only [trialThemesInit, List.length_cons, hperm.length_eq]
    rfl
  exact ⟨by cases coin <;> rfl, by cases coin <;> rfl, by decide, rfl, h5, h6, h7⟩

/-! ### Countdown timer (App.js lines 177-223) -/

/-- Timer component state: the absolute deadline endTimeRef, the displayed
timeLeft, the warning flag, the one-shot completion latch hasCompletedRef,
and whether the interval is still scheduled (not yet cleared). -/
structure TimerState where
  endTime : Int
  timeLeft : Int
  isWarning : Bool
  hasCompleted : Bool
  active : Bool
deriving DecidableEq

/-- Mounting the Timer (App.js lines 178-184): the deadline is
now + seconds * 1000 and an interval IS scheduled (setInterval runs in the
mount effect; the first callback only arrives one interval later). -/
def timerMount (start : Int) (seconds : Nat) : TimerState :=
  { endTime := start + (seconds : Int) * 1000
    timeLeft := (seconds : Int)
    isWarning := false
    hasCompleted := false
    active := true }

/-- The warning update (App.js lines 188-190). -/
def warnCheck (s : TimerState) (remaining : Int) : TimerState :=
  if remaining ≤ WARNING_TIME ∧ s.isWarning = false then
    { s with isWarning := true }
  else s

/-- One interval callback (App.js lines 184-202) at wall-clock instant now.
remaining models Math.ceil((endTime - now) / 1000) on integer milliseconds.
Returns the new state and whether onComplete was invoked. -/
def timerTick (s : TimerState) (now : Int) : TimerState × Bool :=
  if s.active = false then (s, false)
  else
    let remaining : Int := (s.endTime - now + 999) / 1000
    let s1 := warnCheck s remaining
    if remaining ≤ 0 then
      if s1.hasCompleted = false then
        ({ s1 with timeLeft := 0, hasCompleted := true, active := false }, true)
      else
        ({ s1 with timeLeft := 0, active := false }, false)
    else
      ({ s1 with timeLeft := remaining }, false)

/-- Run the timer through a sequence of interval-callback instants, counting
how many times onComplete fires. -/
def timerRun : TimerState → List Int → TimerState × Nat
  | s, [] => (s, 0)
  | s, t :: ts =>
    ((timerRun (timerTick s t).1 ts).1,
      (if (timerTick s t).2 then 1 else 0) + (timerRun (timerTick s t).1 ts).2)

theorem warnCheck_endTime (s : TimerState) (r : Int) :
    (warnCheck s r).endTime = s.endTime := by
  unfold warnCheck
  split <;> rfl

theorem warnCheck_hasCompleted (s : TimerState) (r : Int) :
    (warnCheck s r).hasCompleted = s.hasCompleted := by
  unfold warnCheck
  split <;> rfl

theorem timerTick_inactive {s : TimerState} (t : Int) (h : s.active = false) :
    timerTick s t = (s, false) := by
  unfold timerTick
  rw [if_pos h]

theorem timerTick_endTime (s : TimerState) (t : Int) :
    ((timerTick s t).1).endTime = s.endTime := by
  unfold timerTick
  split
  · rfl
  · dsimp only
    split
    · split <;> simp [warnCheck_endTime]
    · simp [warnCheck_endTime]

theorem timerTick_fire_le {s : TimerState} {t : Int}
    (h : (timerTick s t).2 = true) : s.endTime ≤ t := by
  unfold timerTick at h
  split at h
  · simp at h
  · dsimp only at h
    split at h
    case isTrue hr => omega
    case isFalse hr =>
      simp at h

theorem timerTick_fire_inactive {s : TimerState} {t : Int}
    (h : (timerTick s t).2 = true) : ((timerTick s t).1).active = false := by
  unfold timerTick at h ⊢
  by_cases ha : s.active = false
  · rw [if_pos ha] at h
    simp at h
  · rw [if_neg ha] at h ⊢
    dsimp only at h ⊢
    by_cases hr : (s.endTime - t + 999) / 1000 ≤ 0
    · rw [if_pos hr]
      by_cases hc : (warnCheck s ((s.endTime - t + 999) / 1000)).hasCompleted = false
      · rw [if_pos hc]
      · rw [if_neg hc]
    · rw [if_neg hr] at h
      simp at h

theorem timerRun_inactive (ticks : List Int) :
    ∀ s : TimerState, s.active = false → timerRun s ticks = (s, 0) := by
  induction ticks with
  | nil => intro s _; rfl
  | cons t ts ih =>
    intro s h
    unfold timerRun
    rw [timerTick_inactive t h]
    dsimp only
    rw [ih s h]
    rfl

/-- The completion callback fires at most once over any run: the one-shot
latch and the cleared interval prevent a second invocation. -/
theorem timerRun_le_one (ticks : List Int) :
    ∀ s : TimerState, (timerRun s ticks).2 ≤ 1 := by
  induction ticks with
  | nil => intro s; exact Nat.zero_le 1
  | cons t ts ih =>
    intro s
    unfold timerRun
    by_cases hf : (timerTick s t).2 = true
    · rw [timerRun_inactive ts _ (timerTick_fire_inactive hf)]
      simp [hf]
    · have hf2 : (timerTick s t).2 = false := by
        cases hq : (timerTick s t).2
        · rfl
        · exact absurd hq hf
      simp only [hf2, if_false]
      simpa using ih (timerTick s t).1

/-- If the completion callback ever fired, some callback instant was at or
after the deadline. -/
theorem timerRun_fire_time (ticks : List Int) :
    ∀ s : TimerState, 1 ≤ (timerRun s ticks).2 →
      ∃ t ∈ ticks, s.endTime ≤ t := by
  induction ticks with
  | nil =>
    intro s h
    simp [timerRun] at h
  | cons t ts ih =>
    intro s h
    by_cases hf : (timerTick s t).2 = true
    · exact ⟨t, List.mem_cons_self t ts, timerTick_fire_le hf⟩
    · have hf2 : (timerTick s t).2 = false := by
        cases hq : (timerTick s t).2
        · rfl
        · exact absurd hq hf
      have h2 : 1 ≤ (timerRun (timerTick s t).1 ts).2 := by
        have : (timerRun s (t :: ts)).2 =
            (if (timerTick s t).2 then 1 else 0) + (timerRun (timerTick s t).1 ts).2 := rfl
        rw [this, hf2] at h
        simpa using h
      obtain ⟨u, hu, hle⟩ := ih (timerTick s t).1 h2
      refine ⟨u, List.mem_cons_of_mem t hu, ?_⟩
      rw [timerTick_endTime s t] at hle
      exact hle

/-- An active, not-yet-completed timer whose deadline has passed fires on the
current callback. -/
theorem timerTick_fires_at_deadline (s : TimerState) (now : Int)
    (ha : s.active = true) (hc : s.hasCompleted = false) (hd : s.endTime ≤ now) :
    (timerTick s now).2 = true := by
  unfold timerTick
  have hna : ¬(s.active = false) := by simp [ha]
  rw [if_neg hna]
  dsimp only
  have hr : (s.endTime - now + 999) / 1000 ≤ 0 := by omega
  rw [if_pos hr]
  rw [if_pos (by rw [warnCheck_hasCompleted]; exact hc)]

/-- C5 (amended): a Timer fires completion at most once (one-shot latch);
whenever it fires, some interval callback ran at or after the deadline
start + 1000 * d ms, so it never fires early; but for d = 0 it does NOT fire
immediately without a tick: nothing fires before the first interval
callback (which setInterval delivers only after its 100 ms delay), an
interval is always scheduled, and the first callback at or after the
deadline is the one that fires. -/
theorem c5_timer_amended (start : Int) (d : Nat) (ticks : List Int) (now : Int) :
    (timerRun (timerMount start d) ticks).2 ≤ 1 ∧
    (1 ≤ (timerRun (timerMount start d) ticks).2 →
      ∃ t ∈ ticks, start + (d : Int) * 1000 ≤ t) ∧
    (timerRun (timerMount start d) []).2 = 0 ∧
    (timerMount start d).active = true ∧
    (start + (d : Int) * 1000 ≤ now → (timerTick (timerMount start d) now).2 = true) := by
  refine ⟨timerRun_le_one ticks _, ?_, rfl, rfl, ?_⟩
  · intro h
    exact timerRun_fire_time ticks _ h
  · intro h
    exact timerTick_fires_at_deadline _ now rfl rfl h

/-- C5 counterexample: with duration 0, at mount and before any interval
callback, the completion callback has fired 0 times and an interval IS
scheduled — refuting "for d = 0 it fires completion immediately without
scheduling a single tick". -/
theorem c5_counterexample :
    (timerRun (timerMount 0 0) []).2 = 0 ∧ (timerMount 0 0).active = true :=
  ⟨rfl, rfl⟩

/-- C5 witness: with duration 0 and a callback at instant 0, the timer fires
exactly once, at an instant at or after the deadline. -/
theorem c5_witness :
    (∃ t ∈ [(0 : Int)], (0 : Int) + ((0 : Nat) : Int) * 1000 ≤ t) ∧
    (timerTick (timerMount 0 0) 0).2 = true :=
  ⟨(c5_timer_amended 0 0 [0] 0).2.1 (by decide),
   (c5_timer_amended 0 0 [0] 0).2.2.2.2 (by decide)⟩

/-! ### Trial durations versus instruction copy (C9) -/

/-- PromptInput.currentTime (App.js line 584): the countdown duration. -/
def currentTime (isPractice : Bool) : Nat :=
  if isPractice then PRACTICE_TIME else TRIAL_TIME

/-- GeneralInstructions copy, App.js line 523. -/
def generalInstructionsPracticeLine : String :=
  "• One practice trial (30s) to familiarize you with the task"

/-- GeneralInstructions copy, App.js line 525. -/
def generalInstructionsMainTrialLine : String :=
  "• For each main trial, you will have 2 minutes to write prompts"

/-- PracticeInstructions copy, App.js line 557. -/
def practiceInstructionsTimeLine : String :=
  "• Have 30 seconds to write prompts for a given theme"

/-- Boolean substring test used to pin down what the instruction copy tells
the participant. -/
def strContains (s pat : String) : Bool :=
  (List.range (s.data.length + 1)).any fun i => pat.data.isPrefixOf (s.data.drop i)

/-- C9: the countdown actually used is TRIAL_TIME = 12 s for main trials and
PRACTICE_TIME = 10 s for the practice trial, while the instruction screens
tell the participant "2 minutes" (main) and "30 seconds" / "(30s)"
(practice); the real durations differ from the advertised 120 s and 30 s. -/
theorem c9_actual_durations :
    currentTime false = TRIAL_TIME ∧ currentTime true = PRACTICE_TIME ∧
    TRIAL_TIME = 12 ∧ PRACTICE_TIME = 10 ∧
    strContains generalInstructionsMainTrialLine "2 minutes" = true ∧
    strContains generalInstructionsPracticeLine "(30s)" = true ∧
    strContains practiceInstructionsTimeLine "30 seconds" = true ∧
    TRIAL_TIME ≠ 2 * 60 ∧ PRACTICE_TIME ≠ 30 := by
  refine ⟨rfl, rfl, rfl, rfl, by decide, by decide, by decide, by decide, by decide⟩

/-! ### Generation poller (App.js lines 852-925) -/

/-- A generated image record as returned by GET /api/get-all-images. -/
structure GeneratedImage where
  imagePath : String
  trialIndex : Nat
  theme : String
  condition : String
  prompt : String
deriving DecidableEq

/-- Outcome of one status fetch inside poll(): either the transport fails
(fetch or response.json() rejects) or a status string is parsed. -/
inductive StatusFetch where
  | netErr
  | status (s : String)
deriving DecidableEq

/-- Outcome of the get-all-images fetch in the ready branch. -/
inductive ImagesFetch where
  | netErr
  | notOk
  | ok (images : List GeneratedImage)
deriving DecidableEq

/-- Terminal outcome of pollGenerationStatus.  toNoImages and toRating are
pages set from inside poll(); outerCatch is the call-site try/catch (which
also sets the page to noImages and sets an error); unhandledRejection means
the error escaped — a rescheduled poll() was invoked by setTimeout, whose
rejection nothing awaits, so no catch runs and the page stays where it was;
hang means the environment supplied no further response. -/
inductive PollEnd where
  | hang
  | toNoImages
  | toRating (images : List GeneratedImage)
  | outerCatch
  | unhandledRejection
deriving DecidableEq

/-- Observable result of a poll run: number of status requests issued,
number of image-batch requests issued, and the terminal outcome. -/
structure PollResult where
  statusRequests : Nat
  imageRequests : Nat
  outcome : PollEnd
deriving DecidableEq

/-- The recursive poll() closure (App.js lines 858-916).  attempts is the
counter value at invocation entry (incremented before each fetch; checked
against maxAttempts = 4 at entry); isFirst records whether this invocation
is the one awaited by the call-site try (true) or one scheduled through
setTimeout (false), whose rejection nothing catches. -/
def pollAux (attempts : Nat) (isFirst : Bool) (resps : List StatusFetch)
    (imgs : ImagesFetch) : PollResult :=
  if attempts ≥ 4 then ⟨0, 0, .toNoImages⟩
  else
    match resps with
    | [] => ⟨0, 0, .hang⟩
    | StatusFetch.netErr :: _ =>
      ⟨1, 0, if isFirst then .outerCatch else .unhandledRejection⟩
    | StatusFetch.status st :: rest =>
      if st = "ready" then
        match imgs with
        | ImagesFetch.netErr => ⟨1, 1, .toNoImages⟩
        | ImagesFetch.notOk => ⟨1, 1, .toNoImages⟩
        | ImagesFetch.ok l =>
          if l.length > 0 then ⟨1, 1, .toRating l⟩ else ⟨1, 1, .toNoImages⟩
      else if st = "no_trials" ∨ st = "all_failed" then ⟨1, 0, .toNoImages⟩
      else if st = "pending" then
        let r := pollAux (attempts + 1) false rest imgs
        ⟨r.statusRequests + 1, r.imageRequests, r.outcome⟩
      else ⟨1, 0, .toNoImages⟩

/-- pollGenerationStatus: the first poll() invocation is awaited inside the
call-site try/catch, with the attempt counter starting at 0. -/
def pollGenerationStatus (resps : List StatusFetch) (imgs : ImagesFetch) :
    PollResult :=
  pollAux 0 true resps imgs

/-- The page the machine shows after the poll run, starting from the
processing page: an unhandled rejection (or a hung await) leaves it there. -/
def pollFinalPage (o : PollEnd) : String :=
  match o with
  | .hang => "processing"
  | .toNoImages => "noImages"
  | .toRating _ => "imageRating"
  | .outerCatch => "noImages"
  | .unhandledRejection => "processing"

theorem pollAux_requests_le (resps : List StatusFetch) :
    ∀ (a : Nat) (f : Bool) (imgs : ImagesFetch),
      (pollAux a f resps imgs).statusRequests ≤ 4 - a := by
  induction resps with
  | nil =>
    intro a f imgs
    unfold pollAux
    split
    · exact Nat.zero_le _
    · exact Nat.zero_le _
  | cons r rest ih =>
    intro a f imgs
    unfold pollAux
    split
    case isTrue => exact Nat.zero_le _
    case isFalse hlt =>
      have ha : a < 4 := Nat.lt_of_not_le (fun hc => hlt hc)
      cases r with
      | netErr =>
        dsimp only
        omega
      | status st =>
        dsimp only
        by_cases h1 : st = "ready"
        · rw [if_pos h1]
          cases imgs with
          | netErr =>
            dsimp only
            omega
          | notOk =>
            dsimp only
            omega
          | ok l =>
            dsimp only
            split
            · dsimp only
              omega
            · dsimp only
              omega
        · rw [if_neg h1]
          by_cases h2 : st = "no_trials" ∨ st = "all_failed"
          · rw [if_pos h2]
            dsimp only
            omega
          · rw [if_neg h2]
            by_cases h3 : st = "pending"
            · rw [if_pos h3]
              have := ih (a + 1) false imgs
              dsimp only
              omega
            · rw [if_neg h3]
              dsimp only
              omega

theorem pollAux_all_pending (resps : List StatusFetch) :
    ∀ (a : Nat) (f : Bool) (imgs : ImagesFetch),
      (∀ r ∈ resps, r = StatusFetch.status "pending") →
      4 - a ≤ resps.length →
      pollAux a f resps imgs = ⟨4 - a, 0, .toNoImages⟩ := by
  induction resps with
  | nil =>
    intro a f imgs _ hlen
    have ha : a ≥ 4 := by
      simp at hlen
      omega
    unfold pollAux
    rw [if_pos ha]
    have : 4 - a = 0 := by omega
    rw [this]
  | cons r rest ih =>
    intro a f imgs hall hlen
    by_cases ha : a ≥ 4
    · unfold pollAux
      rw [if_pos ha]
      have : 4 - a = 0 := by omega
      rw [this]
    · have hr : r = StatusFetch.status "pending" := hall r (List.mem_cons_self r rest)
      unfold pollAux
      rw [if_neg ha, hr]
      dsimp only
      rw [if_neg (by decide : ¬("pending" : String) = "ready")]
      rw [if_neg (by decide :
        ¬(("pending" : String) = "no_trials" ∨ ("pending" : String) = "all_failed"))]
      rw [if_pos rfl]
      have hrec := ih (a + 1) false imgs
        (fun x hx => hall x (List.mem_cons_of_mem r hx))
        (by simp at hlen; omega)
      rw [hrec]
      dsimp only
      have : 4 - (a + 1) + 1 = 4 - a := by omega
      rw [this]

/-- C4: the poller issues at most 4 status requests; and whenever every
response is pending (and the environment would keep answering), exactly 4
status requests are made and the machine routes to the no-images page —
the 5th invocation hits the attempt bound and issues no request. -/
theorem c4_poll_bound :
    (∀ (resps : List StatusFetch) (imgs : ImagesFetch),
      (pollGenerationStatus resps imgs).statusRequests ≤ 4) ∧
    (∀ (resps : List StatusFetch) (imgs : ImagesFetch),
      (∀ r ∈ resps, r = StatusFetch.status "pending") →
      4 ≤ resps.length →
      pollGenerationStatus resps imgs = ⟨4, 0, PollEnd.toNoImages⟩ ∧
      pollFinalPage (pollGenerationStatus resps imgs).outcome = "noImages") := by
  constructor
  · intro resps imgs
    exact pollAux_requests_le resps 0 true imgs
  · intro resps imgs hall hlen
    have h := pollAux_all_pending resps 0 true imgs hall (by simpa using hlen)
    refine ⟨h, ?_⟩
    unfold pollGenerationStatus at h ⊢
    rw [h]
    rfl

/-- C4 witness: five pending responses produce exactly 4 status requests and
the no-images outcome. -/
theorem c4_witness :
    pollGenerationStatus (List.replicate 5 (StatusFetch.status "pending"))
        (ImagesFetch.ok []) = ⟨4, 0, PollEnd.toNoImages⟩ :=
  ((c4_poll_bound.2 (List.replicate 5 (StatusFetch.status "pending"))
    (ImagesFetch.ok []) (by decide) (by decide))).1

/-- C6 counterexample: a network failure on the second poll (the first
returned pending, so the second was scheduled through setTimeout) is NOT
caught: the rejection is unhandled and the machine stays on the processing
page instead of routing to the no-images page. -/
theorem c6_counterexample :
    pollGenerationStatus [StatusFetch.status "pending", StatusFetch.netErr]
        (ImagesFetch.ok []) = ⟨2, 0, PollEnd.unhandledRejection⟩ ∧
    pollFinalPage (pollGenerationStatus
        [StatusFetch.status "pending", StatusFetch.netErr]
        (ImagesFetch.ok [])).outcome = "processing" := by
  refine ⟨by decide, by decide⟩

/-- C6 (amended): only a network failure on the FIRST poll invocation is
caught at the call site and routed to the no-images page; a network failure
on any poll scheduled after a pending response (invocations 2..4) escapes
as an unhandled rejection and the machine stays on the processing page. -/
theorem c6_poll_failure_amended (rest : List StatusFetch) (imgs : ImagesFetch)
    (k : Nat) :
    (pollGenerationStatus (StatusFetch.netErr :: rest) imgs =
      ⟨1, 0, PollEnd.outerCatch⟩ ∧
     pollFinalPage (pollGenerationStatus (StatusFetch.netErr :: rest) imgs).outcome
       = "noImages") ∧
    (1 ≤ k → k ≤ 3 →
      pollGenerationStatus
          (List.replicate k (StatusFetch.status "pending") ++
            StatusFetch.netErr :: rest) imgs =
        ⟨k + 1, 0, PollEnd.unhandledRejection⟩ ∧
      pollFinalPage (pollGenerationStatus
          (List.replicate k (StatusFetch.status "pending") ++
            StatusFetch.netErr :: rest) imgs).outcome = "processing") := by
  constructor
  · constructor
    · rfl
    · rfl
  · intro h1 h3
    interval_cases k
    · exact ⟨rfl, rfl⟩
    · exact ⟨rfl, rfl⟩
    · exact ⟨rfl, rfl⟩

/-- C6 witness: concrete instantiation — first-poll failure is caught and
routes to noImages; a failure after two pending polls is unhandled. -/
theorem c6_witness :
    pollFinalPage (pollGenerationStatus [StatusFetch.netErr]
      (ImagesFetch.ok [])).outcome = "noImages" ∧
    pollGenerationStatus
        (List.replicate 2 (StatusFetch.status "pending") ++
          StatusFetch.netErr :: []) (ImagesFetch.ok []) =
      ⟨3, 0, PollEnd.unhandledRejection⟩ :=
  ⟨(c6_poll_failure_amended [] (ImagesFetch.ok []) 2).1.2,
   ((c6_poll_failure_amended [] (ImagesFetch.ok []) 2).2 (by decide) (by decide)).1⟩

/-! ### Backend requests and app-level state (App.js MainApp) -/

/-- Result of one awaited fetch: 2xx, non-2xx, or transport failure. -/
inductive FetchResult where
  | ok
  | notOk
  | netErr
deriving DecidableEq

/-- Body of POST /api/save-prompt (App.js lines 823-834).  The timingData
field of the source payload is measurement data not modeled here. -/
structure PromptSubmission where
  prolificId : String
  trialIndex : Nat
  condition : String
  theme : String
  prompts : List String
  selectedPrompt : Option String
  isPractice : Bool
  conditionOrder : String
deriving DecidableEq

/-- One record of the POST /api/save-ratings body (App.js lines 1006-1015). -/
structure RatingRecord where
  prolificId : String
  trialIndex : Nat
  creativityRating : Nat
  intentionRating : Nat
  theme : String
  condition : String
  prompt : String
deriving DecidableEq

/-- The backend requests the app can issue. -/
inductive Request where
  | saveSurvey (prolificId : String)
  | savePrompt (sub : PromptSubmission)
  | checkGenerationStatus (prolificId : String)
  | getAllImages (prolificId : String)
  | saveRatings (records : List RatingRecord)
  | markCompletion (prolificId : String)
deriving DecidableEq

/-- Whether a request is a POST /api/save-survey. -/
def Request.isSaveSurvey : Request → Bool
  | .saveSurvey _ => true
  | _ => false

/-- Whether a request is a POST /api/save-ratings. -/
def Request.isSaveRatings : Request → Bool
  | .saveRatings _ => true
  | _ => false

/-- MainApp state (App.js lines 752-757 and the session plan). -/
structure AppState where
  currentPage : String
  prolificId : String
  currentTrialIndex : Nat
  isLoading : Bool
  error : Option String
  conditionOrder : String
  conditionSequence : List String
  trialThemes : List String
deriving DecidableEq

/-- handleNextTrial (App.js lines 941-955). -/
def handleNextTrial (app : AppState) : AppState :=
  let next := app.currentTrialIndex + 1
  if app.currentTrialIndex = 0 then
    { app with currentTrialIndex := next, currentPage := "mainTrialTransition" }
  else if next ≥ 7 then
    { app with isLoading := true, currentPage := "processing" }
  else
    { app with currentTrialIndex := next, currentPage := "betweenTrials" }

/-- getCurrentTrial (App.js lines 793-804): theme and condition of the
current trial; out-of-range lookups (impossible in the run) default to "". -/
def getCurrentTrial (app : AppState) : String × String :=
  if app.currentTrialIndex = 0 then (PRACTICE_THEME, "practice")
  else (app.trialThemes.getD app.currentTrialIndex "",
    app.conditionSequence.getD (app.currentTrialIndex - 1) "")

/-! ### AI-experience survey submission (C1) -/

/-- Survey form data (App.js lines 260-270). -/
structure SurveyResponses where
  genAiExperience : String
  textToImageExperience : String
  dall_e : Bool
  midjourney : Bool
  stable_diffusion : Bool
  otherUsed : Bool
  otherTools : String
deriving DecidableEq

/-- The required-field check of AiExperienceSurvey.handleSubmit (App.js
line 275): a falsy (empty) select value fails validation. -/
def surveyMissingFields (r : SurveyResponses) : Bool :=
  r.genAiExperience == "" || r.textToImageExperience == ""

/-- Observable result of submitting the survey form. -/
structure SurveyStepResult where
  page : String
  error : Option String
  requests : List Request
deriving DecidableEq

/-- Submitting the AI-experience survey: AiExperienceSurvey.handleSubmit
(App.js lines 273-281) composed with the page-level onSubmit callback
(App.js lines 1245-1249, which ignores the responses and only advances the
page).  Neither performs any fetch. -/
def surveySubmitStep (r : SurveyResponses) : SurveyStepResult :=
  if surveyMissingFields r then
    { page := "aiExperienceSurvey"
      error := some "Please complete all required fields"
      requests := [] }
  else
    { page := "generalInstructions", error := none, requests := [] }

/-- A concrete, fully valid survey response. -/
def surveyR0 : SurveyResponses :=
  { genAiExperience := "basic", textToImageExperience := "often",
    dall_e := true, midjourney := false, stable_diffusion := false,
    otherUsed := false, otherTools := "" }

/-- C1 counterexample: submitting a valid survey issues NO requests at all —
in particular no POST /api/save-survey — and the phase advances regardless
of any backend, refuting the claim that the responses are sent and that
advancement is gated on a successful save. -/
theorem c1_counterexample :
    (surveySubmitStep surveyR0).requests = [] ∧
    ((surveySubmitStep surveyR0).requests.any Request.isSaveSurvey) = false ∧
    (surveySubmitStep surveyR0).page = "generalInstructions" := by
  refine ⟨rfl, rfl, rfl⟩

/-- C1 (amended): submitting the AI-experience survey performs only local
validation — when a required field is missing an inline error is shown and
the phase stays; otherwise the phase advances immediately to the
general-instructions page.  No backend request is issued either way; the
POST /api/save-survey flow exists only in the superseded variant file. -/
theorem c1_survey_submit_amended (r : SurveyResponses) :
    (surveySubmitStep r).requests = [] ∧
    (surveySubmitStep r).page =
      (if surveyMissingFields r then "aiExperienceSurvey"
       else "generalInstructions") ∧
    (surveySubmitStep r).error =
      (if surveyMissingFields r then some "Please complete all required fields"
       else none) := by
  unfold surveySubmitStep
  by_cases h : surveyMissingFields r = true
  · rw [if_pos h]
    exact ⟨rfl, by rw [if_pos h], by rw [if_pos h]⟩
  · have h2 : surveyMissingFields r = false := by
      cases hq : surveyMissingFields r
      · rfl
      · exact absurd hq h
    rw [h2]
    exact ⟨rfl, rfl, rfl⟩

/-! ### PromptInput component (App.js lines 572-729) -/

/-- Model of JavaScript String.prototype.trim (the source calls .trim() on
every prompt): strip whitespace from both ends. -/
def jsTrim (s : String) : String :=
  ⟨((s.data.dropWhile Char.isWhitespace).reverse.dropWhile
      Char.isWhitespace).reverse⟩

/-- The integrity notice shown when time expires with no prompt typed
(App.js lines 602-604). -/
def emptyPromptNotice : String :=
  "You did not provide any prompt. Please ensure to write down your prompt ideas in time. It is critical that you actively participate in the survey."

/-- The validation message of handleSubmit when prompts exist but none is
selected (App.js line 656). -/
def selectPromptNotice : String :=
  "Please select one of your prompts before continuing."

/-- The filter applied at freeze and at submission (App.js lines 599, 642):
keep entries whose trimmed text is non-empty. -/
def validPrompts (l : List String) : List String :=
  l.filter (fun p => jsTrim p != "")

/-- PromptInput component state.  selectionStarted models whether
selectionStartTimeRef has been set; timing instants themselves are
measurement data not modeled. -/
structure PromptInputState where
  prompts : List String
  isTimeUp : Bool
  selectedPrompt : Option String
  error : Option String
  hasSubmitted : Bool
  selectionStarted : Bool
  firstKeypressRecorded : Bool
deriving DecidableEq

/-- Initial component state (App.js lines 573-583): one empty editable
slot. -/
def initPromptInput : PromptInputState :=
  { prompts := [""]
    isTimeUp := false
    selectedPrompt := none
    error := none
    hasSubmitted := false
    selectionStarted := false
    firstKeypressRecorded := false }

/-- The argument handed to onSubmit (App.js line 661). -/
structure SubmitCall where
  prompts : List String
  selectedPrompt : Option String
deriving DecidableEq

/-- Events the rendered component can deliver: a keystroke, an edit of input
slot i, the timer completion, a click on the selection button of frozen
prompt i, and a click of the submit button. -/
inductive PIEvent where
  | keypress
  | change (index : Nat) (value : String)
  | timerComplete
  | select (index : Nat)
  | submit
deriving DecidableEq

/-- One event step of the component, returning the new state and the
onSubmit call if one was made.  Handlers from App.js: handleKeyPress
(614-619), handlePromptChange (621-631), handleTimerComplete (597-611),
handlePromptSelection (633-637), handleSubmit (639-662). -/
def piStep : PIEvent → PromptInputState → PromptInputState × Option SubmitCall
  | .keypress, s =>
    if s.firstKeypressRecorded then (s, none)
    else ({ s with firstKeypressRecorded := true }, none)
  | .change i v, s =>
    if s.isTimeUp then (s, none)
    else if i < s.prompts.length then
      ({ s with prompts :=
          if i = s.prompts.length - 1 ∧ jsTrim v ≠ "" then
            s.prompts.set i v ++ [""]
          else s.prompts.set i v },
        none)
    else (s, none)
  | .timerComplete, s =>
    if s.isTimeUp then (s, none)
    else if (validPrompts s.prompts).isEmpty then
      ({ s with
          isTimeUp := true
          error := some emptyPromptNotice
          prompts := [] }, none)
    else
      ({ s with
          isTimeUp := true
          prompts := validPrompts s.prompts
          selectedPrompt := none
          selectionStarted := true }, none)
  | .select i, s =>
    if s.isTimeUp = false then (s, none)
    else if i < s.prompts.length then
      ({ s with
          selectedPrompt := some (s.prompts.getD i "")
          error := none }, none)
    else (s, none)
  | .submit, s =>
    if s.hasSubmitted then (s, none)
    else if s.selectedPrompt.isNone && !(validPrompts s.prompts).isEmpty then
      ({ s with error := some selectPromptNotice }, none)
    else
      ({ s with hasSubmitted := true },
        some ⟨validPrompts s.prompts, s.selectedPrompt⟩)

/-- Run the component from a state through a list of events. -/
def piRunFrom (s : PromptInputState) : List PIEvent → PromptInputState
  | [] => s
  | e :: es => piRunFrom (piStep e s).1 es

/-- Run the component from its initial state. -/
def piRun (es : List PIEvent) : PromptInputState :=
  piRunFrom initPromptInput es

/-- handlePromptSubmission (App.js lines 806-850): the app-level handler
awaiting POST /api/save-prompt.  Returns the new app state and the requests
issued.  With zero prompts it advances immediately without any request; with
prompts but no selection it returns silently; otherwise the trial advances
only when the save succeeded, and a failure only sets the inline error. -/
def handlePromptSubmission (app : AppState) (submittedPrompts : List String)
    (selectedPrompt : Option String) (save : FetchResult) :
    AppState × List Request :=
  let a0 : AppState := { app with isLoading := true, error := none }
  if submittedPrompts.isEmpty then
    ({ handleNextTrial a0 with isLoading := false }, [])
  else
    match selectedPrompt with
    | none => ({ a0 with isLoading := false }, [])
    | some sp =>
      let sub : PromptSubmission :=
        { prolificId := a0.prolificId
          trialIndex := a0.currentTrialIndex
          condition := (getCurrentTrial a0).2
          theme := (getCurrentTrial a0).1
          prompts := submittedPrompts
          selectedPrompt := some sp
          isPractice := a0.currentTrialIndex == 0
          conditionOrder := a0.conditionOrder }
      match save with
      | .ok =>
        ({ handleNextTrial a0 with isLoading := false },
          [Request.savePrompt sub])
      | .notOk =>
        ({ a0 with error := some "Failed to save prompt", isLoading := false },
          [Request.savePrompt sub])
      | .netErr =>
        ({ a0 with error := some "Failed to fetch", isLoading := false },
          [Request.savePrompt sub])

/-- The selection invariant: a selected prompt only exists after the freeze
and is always an exact member of the (frozen) prompt list. -/
def PIInv (s : PromptInputState) : Prop :=
  ∀ p, s.selectedPrompt = some p → s.isTimeUp = true ∧ p ∈ s.prompts

theorem getD_mem (l : List String) :
    ∀ i : Nat, i < l.length → l.getD i "" ∈ l := by
  induction l with
  | nil =>
    intro i h
    simp at h
  | cons b t ih =>
    intro i h
    cases i with
    | zero => exact List.mem_cons_self b t
    | succ i =>
      have h2 : i < t.length := by simpa using h
      exact List.mem_cons_of_mem b (ih i h2)

theorem piStep_inv (e : PIEvent) (s : PromptInputState) (h : PIInv s) :
    PIInv (piStep e s).1 := by
  cases e with
  | keypress =>
    simp only [piStep]
    split
    · exact h
    · intro p hp
      exact h p hp
  | change i v =>
    simp only [piStep]
    split
    case isTrue => exact h
    case isFalse hnt =>
      split
      case isTrue hi =>
        intro p hp
        exact absurd (h p hp).1 hnt
      case isFalse => exact h
  | timerComplete =>
    simp only [piStep]
    split
    case isTrue => exact h
    case isFalse hnt =>
      split
      · intro p hp
        exact absurd (h p hp).1 hnt
      · intro p hp
        simp at hp
  | select i =>
    simp only [piStep]
    split
    case isTrue => exact h
    case isFalse hnf =>
      split
      case isTrue hi =>
        intro p hp
        have hp2 : some (s.prompts.getD i "") = some p := hp
        have hp3 := Option.some.inj hp2
        constructor
        · cases hq : s.isTimeUp
          · exact absurd hq hnf
          · rfl
        · rw [← hp3]
          exact getD_mem s.prompts i hi
      case isFalse => exact h
  | submit =>
    simp only [piStep]
    split
    · exact h
    · split
      · intro p hp
        exact h p hp
      · intro p hp
        exact h p hp

theorem piRunFrom_inv (es : List PIEvent) :
    ∀ s : PromptInputState, PIInv s → PIInv (piRunFrom s es) := by
  induction es with
  | nil => intro s h; exact h
  | cons e es ih =>
    intro s h
    exact ih (piStep e s).1 (piStep_inv e s h)

theorem piRun_inv (es : List PIEvent) : PIInv (piRun es) := by
  apply piRunFrom_inv
  intro p hp
  simp [initPromptInput] at hp

/-- Rejection behaviour of handleSubmit when prompts exist but none is
selected. -/
theorem piSubmit_reject (s : PromptInputState) (h1 : s.hasSubmitted = false)
    (h2 : s.selectedPrompt = none) (h3 : validPrompts s.prompts ≠ []) :
    piStep .submit s = ({ s with error := some selectPromptNotice }, none) := by
  have hne : (validPrompts s.prompts).isEmpty = false := by
    cases hq : (validPrompts s.prompts).isEmpty
    · rfl
    · exact absurd (List.isEmpty_iff.mp hq) h3
  simp only [piStep]
  rw [if_neg (by simp [h1])]
  rw [if_pos (by simp [h2, hne])]

/-- Pass-through behaviour of handleSubmit when the frozen set is empty. -/
theorem piSubmit_empty (s : PromptInputState) (h1 : s.hasSubmitted = false)
    (h2 : s.selectedPrompt = none) (h3 : validPrompts s.prompts = []) :
    piStep .submit s =
      ({ s with hasSubmitted := true }, some ⟨[], none⟩) := by
  simp only [piStep]
  rw [if_neg (by simp [h1])]
  rw [if_neg (by simp [h3])]
  rw [h3, h2]

/-- C7: in every reachable component state, a selected prompt is an exact
member of the frozen prompt set (selection only exists after the freeze);
submitting with no selection while the frozen set is non-empty is rejected
with an inline error, no onSubmit call, and no latch; submitting with an
empty frozen set proceeds, calling onSubmit with no prompts and no
selection. -/
theorem c7_selection_validation (es : List PIEvent) :
    (∀ p, (piRun es).selectedPrompt = some p →
      (piRun es).isTimeUp = true ∧ p ∈ (piRun es).prompts) ∧
    ((piRun es).hasSubmitted = false → (piRun es).selectedPrompt = none →
      validPrompts (piRun es).prompts ≠ [] →
      (piStep .submit (piRun es)).2 = none ∧
      (piStep .submit (piRun es)).1.error = some selectPromptNotice ∧
      (piStep .submit (piRun es)).1.hasSubmitted = false) ∧
    ((piRun es).hasSubmitted = false → (piRun es).selectedPrompt = none →
      validPrompts (piRun es).prompts = [] →
      (piStep .submit (piRun es)).2 = some ⟨[], none⟩) := by
  refine ⟨piRun_inv es, ?_, ?_⟩
  · intro h1 h2 h3
    rw [piSubmit_reject (piRun es) h1 h2 h3]
    exact ⟨rfl, rfl, h1⟩
  · intro h1 h2 h3
    rw [piSubmit_empty (piRun es) h1 h2 h3]

/-- C7 witness: concrete runs — a typed and selected prompt is a member of
the frozen set; submitting unselected with one frozen prompt is rejected;
submitting after an all-blank phase proceeds with the empty call. -/
theorem c7_witness :
    ((piRun [PIEvent.change 0 "a quiet forest", PIEvent.timerComplete,
        PIEvent.select 0]).isTimeUp = true ∧
      "a quiet forest" ∈ (piRun [PIEvent.change 0 "a quiet forest",
        PIEvent.timerComplete, PIEvent.select 0]).prompts) ∧
    (piStep .submit (piRun [PIEvent.change 0 "a quiet forest",
        PIEvent.timerComplete])).2 = none ∧
    (piStep .submit (piRun [PIEvent.timerComplete])).2 =
      some ⟨[], none⟩ :=
  ⟨(c7_selection_validation [PIEvent.change 0 "a quiet forest",
      PIEvent.timerComplete, PIEvent.select 0]).1 "a quiet forest" (by decide),
   ((c7_selection_validation [PIEvent.change 0 "a quiet forest",
      PIEvent.timerComplete]).2.1 (by decide) (by decide) (by decide)).1,
   (c7_selection_validation [PIEvent.timerComplete]).2.2 (by decide)
     (by decide) (by decide)⟩

/-! ### Empty-outcome and failed submissions (C2, C3) -/

/-- A concrete mid-run app state: main trial 3, prompt-input page. -/
def appC2 : AppState :=
  { currentPage := "promptInput"
    prolificId := "R7X9"
    currentTrialIndex := 3
    isLoading := false
    error := none
    conditionOrder := "creative_first"
    conditionSequence := List.replicate 3 BE_CREATIVE ++ List.replicate 3 BE_FLUENT
    trialThemes := PRACTICE_THEME :: TRIAL_THEMES }

/-- C2 counterexample: submitting an empty prompt set issues NO backend
request at all — no record, no "no response" marker — yet the trial
sequence advances; the empty outcome is silently skipped, refuting the
claim that it is persisted. -/
theorem c2_counterexample :
    (handlePromptSubmission appC2 [] none FetchResult.ok).2 = [] ∧
    (handlePromptSubmission appC2 [] none FetchResult.ok).1.currentPage =
      "betweenTrials" ∧
    (handlePromptSubmission appC2 [] none FetchResult.ok).1.currentTrialIndex
      = 4 := by
  refine ⟨rfl, rfl, rfl⟩

/-- C2 (amended): when the frozen prompt set is empty, the participant sees
the integrity notice and the frozen list becomes empty; the submit action
then calls onSubmit with no prompts and no selection, and the app-level
handler advances the trial sequence immediately while sending NOTHING to the
backend — the empty outcome is not persisted and carries no "no response"
marker. -/
theorem c2_empty_prompts_amended (s : PromptInputState) (app : AppState)
    (backend : FetchResult) (h1 : s.isTimeUp = false)
    (h2 : s.hasSubmitted = false) (h3 : s.selectedPrompt = none)
    (h4 : validPrompts s.prompts = []) :
    ((piStep .timerComplete s).1.error = some emptyPromptNotice) ∧
    ((piStep .timerComplete s).1.prompts = []) ∧
    ((piStep .submit (piStep .timerComplete s).1).2 = some ⟨[], none⟩) ∧
    (handlePromptSubmission app [] none backend).2 = [] ∧
    (handlePromptSubmission app [] none backend).1 =
      { handleNextTrial { app with isLoading := true, error := none } with
          isLoading := false } := by
  have hE : (validPrompts s.prompts).isEmpty = true := by
    rw [h4]
    rfl
  have hTC : piStep .timerComplete s =
      ({ s with
          isTimeUp := true
          error := some emptyPromptNotice
          prompts := [] }, none) := by
    simp only [piStep]
    rw [if_neg (by simp [h1]), if_pos hE]
  refine ⟨by rw [hTC], by rw [hTC], ?_, rfl, rfl⟩
  rw [hTC]
  dsimp only
  rw [piSubmit_empty ({ s with
      isTimeUp := true
      error := some emptyPromptNotice
      prompts := [] }) h2 h3 rfl]

/-- C2 witness: from the initial component state (one blank slot) the
timeout shows the integrity notice, and the app-level submission of the
empty outcome issues no request. -/
theorem c2_witness :
    (piStep .timerComplete initPromptInput).1.error = some emptyPromptNotice ∧
    (handlePromptSubmission appC2 [] none FetchResult.ok).2 = [] :=
  ⟨(c2_empty_prompts_amended initPromptInput appC2 FetchResult.ok rfl rfl rfl
      rfl).1,
   (c2_empty_prompts_amended initPromptInput appC2 FetchResult.ok rfl rfl rfl
      rfl).2.2.2.1⟩

/-- C3 counterexample: after a prompt submission fails (non-2xx), the
component has latched hasSubmitted, so re-invoking the submit action is a
complete no-op — no onSubmit call, no request, no state change — refuting
the claim that the same submit action can be re-invoked to retry. -/
theorem c3_counterexample :
    (piStep .submit (piRun [PIEvent.change 0 "a quiet forest",
        PIEvent.timerComplete, PIEvent.select 0])).2 =
      some ⟨["a quiet forest"], some "a quiet forest"⟩ ∧
    (handlePromptSubmission appC2 ["a quiet forest"]
        (some "a quiet forest") FetchResult.notOk).1.currentPage =
      "promptInput" ∧
    (handlePromptSubmission appC2 ["a quiet forest"]
        (some "a quiet forest") FetchResult.notOk).1.error =
      some "Failed to save prompt" ∧
    piStep .submit (piStep .submit (piRun [PIEvent.change 0 "a quiet forest",
        PIEvent.timerComplete, PIEvent.select 0])).1 =
      ((piStep .submit (piRun [PIEvent.change 0 "a quiet forest",
        PIEvent.timerComplete, PIEvent.select 0])).1, none) := by
  refine ⟨by decide, by decide, by decide, by decide⟩

/-- C3 (amended): on a failed save the phase does not advance, the failure
is surfaced as an inline error, and the typed prompts and selection are
retained — but the submit latch (hasSubmitted, set before the request) makes
every re-invocation of the submit action a no-op, so the submission cannot
be retried. -/
theorem c3_failed_submit_amended (s : PromptInputState) (app : AppState)
    (ps : List String) (sp : String) (save : FetchResult)
    (hps : ps ≠ []) (hsave : save ≠ FetchResult.ok) :
    ((piStep .submit s).1.prompts = s.prompts ∧
     (piStep .submit s).1.selectedPrompt = s.selectedPrompt) ∧
    ((handlePromptSubmission app ps (some sp) save).1.currentPage =
        app.currentPage ∧
     (handlePromptSubmission app ps (some sp) save).1.currentTrialIndex =
        app.currentTrialIndex ∧
     (handlePromptSubmission app ps (some sp) save).1.error ≠ none ∧
     (handlePromptSubmission app ps (some sp) save).2.length = 1) ∧
    (s.hasSubmitted = true → piStep .submit s = (s, none)) ∧
    ((piStep .submit s).2 ≠ none → (piStep .submit s).1.hasSubmitted = true) := by
  have hpe : ps.isEmpty = false := by
    cases ps with
    | nil => exact absurd rfl hps
    | cons a t => rfl
  refine ⟨?_, ?_, ?_, ?_⟩
  · simp only [piStep]
    split
    · exact ⟨rfl, rfl⟩
    · split
      · exact ⟨rfl, rfl⟩
      · exact ⟨rfl, rfl⟩
  · simp only [handlePromptSubmission]
    rw [if_neg (by simp [hpe])]
    cases save with
    | ok => exact absurd rfl hsave
    | notOk => exact ⟨rfl, rfl, by simp, rfl⟩
    | netErr => exact ⟨rfl, rfl, by simp, rfl⟩
  · intro h
    simp [piStep, h]
  · simp only [piStep]
    split
    · intro hc
      exact absurd rfl hc
    · split
      · intro hc
        exact absurd rfl hc
      · intro _
        rfl

/-- C3 witness: with one typed prompt and a failed save, the page does not
advance; and a latched component ignores a further submit. -/
theorem c3_witness :
    (handlePromptSubmission appC2 ["a quiet forest"]
        (some "a quiet forest") FetchResult.notOk).1.currentPage =
      appC2.currentPage ∧
    piStep .submit { initPromptInput with hasSubmitted := true } =
      ({ initPromptInput with hasSubmitted := true }, none) :=
  ⟨(c3_failed_submit_amended initPromptInput appC2 ["a quiet forest"]
      "a quiet forest" FetchResult.notOk (by decide) (by decide)).2.1.1,
   (c3_failed_submit_amended { initPromptInput with hasSubmitted := true }
      appC2 ["a quiet forest"] "a quiet forest" FetchResult.notOk (by decide)
      (by decide)).2.2.1 rfl⟩

/-! ### Image rating submission (C10) -/

/-- Component-side rating state for one image (App.js line 1059): both
scores start null. -/
structure RatingPair where
  creativity : Option Nat
  intention : Option Nat
deriving DecidableEq

/-- ImageRatingInterface.handleSubmit (App.js lines 1066-1077): if any
rating is missing, an inline error and no onSubmit call; otherwise onSubmit
receives the ratings.  There is no submission latch, so the check and the
call repeat identically on every click. -/
def imageRatingSubmitStep (ratings : List RatingPair) :
    Option (List (Nat × Nat)) × Option String :=
  if ratings.any (fun r => r.creativity.isNone || r.intention.isNone) then
    (none,
      some "Please provide both ratings for all images before continuing.")
  else
    (some (ratings.map fun r => (r.creativity.getD 0, r.intention.getD 0)),
      none)

/-- The formattedRatings array (App.js lines 1006-1015): one record per
image, paired with its ratings. -/
def formatRatings (prolificId : String) (images : List GeneratedImage)
    (ratings : List (Nat × Nat)) : List RatingRecord :=
  (images.zip ratings).map fun ir =>
    { prolificId := prolificId
      trialIndex := ir.1.trialIndex
      creativityRating := ir.2.1
      intentionRating := ir.2.2
      theme := ir.1.theme
      condition := ir.1.condition
      prompt := ir.1.prompt }

/-- handleRatingSubmission (App.js lines 1001-1045): POST /api/save-ratings,
then POST /api/mark-completion; only when both succeed does the page move to
thankYou.  A failure after a successful save only sets the inline error: no
record that the ratings were already persisted survives. -/
def handleRatingSubmission (app : AppState) (ratings : List (Nat × Nat))
    (images : List GeneratedImage) (save mark : FetchResult) :
    AppState × List Request :=
  let a0 : AppState := { app with isLoading := true, error := none }
  let formatted := formatRatings a0.prolificId images ratings
  match save with
  | .ok =>
    match mark with
    | .ok =>
      ({ a0 with currentPage := "thankYou", isLoading := false },
        [Request.saveRatings formatted, Request.markCompletion a0.prolificId])
    | .notOk =>
      ({ a0 with error := some "Failed to mark completion", isLoading := false },
        [Request.saveRatings formatted, Request.markCompletion a0.prolificId])
    | .netErr =>
      ({ a0 with error := some "Failed to fetch", isLoading := false },
        [Request.saveRatings formatted, Request.markCompletion a0.prolificId])
  | .notOk =>
    ({ a0 with error := some "Failed to save ratings", isLoading := false },
      [Request.saveRatings formatted])
  | .netErr =>
    ({ a0 with error := some "Failed to fetch", isLoading := false },
      [Request.saveRatings formatted])

/-- C10: rating submission is not atomic.  If save-ratings succeeds but
mark-completion fails, the machine stays on the image-rating page; the
component validation passes again on re-invocation (no latch), and the
re-invoked handler posts the SAME complete ratings batch to
/api/save-ratings a second time. -/
theorem c10_rating_nonatomic (app : AppState) (ratings : List RatingPair)
    (ex : List (Nat × Nat)) (images : List GeneratedImage)
    (save2 mark2 : FetchResult)
    (hv : imageRatingSubmitStep ratings = (some ex, none))
    (hpage : app.currentPage = "imageRating") :
    (handleRatingSubmission app ex images .ok .notOk).1.currentPage =
      "imageRating" ∧
    (handleRatingSubmission app ex images .ok .notOk).1.error ≠ none ∧
    Request.saveRatings (formatRatings app.prolificId images ex) ∈
      (handleRatingSubmission app ex images .ok .notOk).2 ∧
    imageRatingSubmitStep ratings = (some ex, none) ∧
    Request.saveRatings (formatRatings app.prolificId images ex) ∈
      (handleRatingSubmission
        (handleRatingSubmission app ex images .ok .notOk).1
        ex images save2 mark2).2 := by
  refine ⟨hpage, by simp [handleRatingSubmission], ?_, hv, ?_⟩
  · exact List.mem_cons_self _ _
  · cases save2 with
    | ok =>
      cases mark2 with
      | ok => exact List.mem_cons_self _ _
      | notOk => exact List.mem_cons_self _ _
      | netErr => exact List.mem_cons_self _ _
    | notOk => exact List.mem_cons_self _ _
    | netErr => exact List.mem_cons_self _ _

/-- A concrete app state sitting on the image-rating page. -/
def appC10 : AppState :=
  { appC2 with currentPage := "imageRating" }

/-- A concrete generated image. -/
def imgC10 : GeneratedImage :=
  { imagePath := "/images/1.png", trialIndex := 1, theme := "TIME",
    condition := "BE_CREATIVE", prompt := "a neon city at night" }

/-- C10 witness: one fully rated image; save succeeds, completion fails; the
page stays on image rating and the same batch is in both request lists. -/
theorem c10_witness :
    (handleRatingSubmission appC10 [(3, 2)] [imgC10] .ok .notOk).1.currentPage
      = "imageRating" ∧
    Request.saveRatings (formatRatings appC10.prolificId [imgC10] [(3, 2)]) ∈
      (handleRatingSubmission
        (handleRatingSubmission appC10 [(3, 2)] [imgC10] .ok .notOk).1
        [(3, 2)] [imgC10] FetchResult.ok FetchResult.ok).2 :=
  ⟨(c10_rating_nonatomic appC10
      [{ creativity := some 3, intention := some 2 }] [(3, 2)] [imgC10]
      FetchResult.ok FetchResult.ok (by decide) rfl).1,
   (c10_rating_nonatomic appC10
      [{ creativity := some 3, intention := some 2 }] [(3, 2)] [imgC10]
      FetchResult.ok FetchResult.ok (by decide) rfl).2.2.2.2⟩

end BeCreative
